import Mathlib

/-!
Shallow embedding of the ETL pipeline in `etl_demo.py` (class `ETLPipeline`).

Modelling conventions:
* Numeric cells are `Option ℚ`: the Transform phase coerces `price`,
  `quantity` and `total_amount` with `pd.to_numeric(..., errors='coerce')`,
  so a cell is either a number or the NaN sentinel (`none`).
* `customer_email` is `Option String`; `none` models a NaN cell, for which
  `str.contains('@', na=False)` yields `False`.
* `order_date` appears in the claims only through its month period
  (`df['order_date'].dt.to_period('M')`); a `Period[M]` value is order
  isomorphic to an integer month count, so `month : Option ℤ` with `none`
  for NaT (failed date coercion).
* Python `round(x, 2)` is modelled exactly over ℚ as rounding half to even
  at two decimals (`round2`).
* Operations that raise a Python exception are modelled with
  `Except String`, the payload naming the exception.
* A numpy float64 division by zero does not raise: it yields inf or nan,
  which is never a finite number.  `monthly_growth` therefore returns
  `Option ℚ`, `none` standing for the non-finite result of dividing by a
  zero previous-month revenue.
-/

/-- Python `round` at two decimals: round half to even on the exact rational. -/
def roundHalfEven (q : ℚ) : ℤ :=
  if q - ⌊q⌋ < 1/2 then ⌊q⌋
  else if 1/2 < q - ⌊q⌋ then ⌊q⌋ + 1
  else if ⌊q⌋ % 2 = 0 then ⌊q⌋ else ⌊q⌋ + 1

/-- Model of `round(x, 2)` over ℚ. -/
def round2 (q : ℚ) : ℚ := (roundHalfEven (q * 100) : ℚ) / 100

/-- One row of the working table, restricted to the columns the claims use,
after the type coercions of `transform_data` step 1 (lines 139-142):
`none` models NaN/NaT produced by `errors='coerce'`. -/
structure RawRow where
  customer_id : String
  customer_email : Option String
  price : Option ℚ
  quantity : Option ℚ
  discount_percent : Option ℚ
  total_amount : Option ℚ
  month : Option ℤ
  category : String
  region : String
deriving Repr, DecidableEq

/-- Embeds `df['customer_email'].str.contains('@', na=False)` (line 148):
NaN yields `False`; a string cell matches iff one of its characters is
`'@'` (checked on the character list underlying the string). -/
def emailHasAt : Option String → Bool
  | none => false
  | some s => s.data.contains '@'

/-- The rows selected by `~email_mask` (line 152). -/
def emailInvalid (r : RawRow) : Bool := !(emailHasAt r.customer_email)

/-- The rows selected by `df['price'] <= 0` (lines 155, 158): a NaN price
compares `False` in pandas, hence is not selected. -/
def priceInvalid (r : RawRow) : Bool :=
  match r.price with
  | none => false
  | some p => decide (p ≤ 0)

/-- The rows selected by `df['quantity'] <= 0` (lines 161, 164). -/
def qtyInvalid (r : RawRow) : Bool :=
  match r.quantity with
  | none => false
  | some q => decide (q ≤ 0)

/-- The final `data_quality_flag` cell of a row.  Lines 152, 158 and 164
assign the column sequentially (email, then price, then quantity) and each
`df.loc[mask, 'data_quality_flag'] = label` overwrites what an earlier rule
wrote on the rows of its mask, so the cell holds the label of the LAST
matching rule; a row matching no rule keeps NaN (`none`). -/
def flagOf (r : RawRow) : Option String :=
  if qtyInvalid r then some "Invalid Quantity"
  else if priceInvalid r then some "Invalid Price"
  else if emailInvalid r then some "Invalid Email"
  else none

/-- The `data_quality_flag` column of the processed table. -/
def flag_column (df : List RawRow) : List (Option String) := df.map flagOf

/-- Embeds `invalid_emails = (~email_mask).sum()` (line 149). -/
def invalid_emails (df : List RawRow) : Nat :=
  (df.filter (fun r => emailInvalid r)).length

/-- Embeds `invalid_prices = (df['price'] <= 0).sum()` (line 155). -/
def invalid_prices (df : List RawRow) : Nat :=
  (df.filter (fun r => priceInvalid r)).length

/-- Embeds `invalid_quantities = (df['quantity'] <= 0).sum()` (line 161). -/
def invalid_quantities (df : List RawRow) : Nat :=
  (df.filter (fun r => qtyInvalid r)).length

/-- The `quality_issues` list built by lines 150-163: one message per rule
whose count is positive, in rule order. -/
def quality_issues (df : List RawRow) : List String :=
  (if 0 < invalid_emails df then
    ["Invalid emails: " ++ toString (invalid_emails df)] else []) ++
  (if 0 < invalid_prices df then
    ["Invalid prices: " ++ toString (invalid_prices df)] else []) ++
  (if 0 < invalid_quantities df then
    ["Invalid quantities: " ++ toString (invalid_quantities df)] else [])

/-- The column `data_quality_flag` exists after validation iff at least one
of the three guarded assignments ran (lines 150-164). -/
def flagColumnExists (df : List RawRow) : Bool :=
  decide (0 < invalid_emails df) || decide (0 < invalid_prices df) ||
    decide (0 < invalid_quantities df)

/-- Rows whose `data_quality_flag` cell is NaN, i.e. carrying no flag. -/
def clean_count (df : List RawRow) : Nat :=
  (df.filter (fun r => (flagOf r).isNone)).length

/-- The Data Quality Report assembled at lines 196-202. -/
structure QualityReport where
  total_records : Nat
  clean_records : Nat
  error_records : Nat
  data_quality_score : ℚ
  quality_issues : List String
deriving Repr, DecidableEq

/-- The quality-report part of `transform_data` (lines 133-202).
Line 193 computes `len(df[~df.get('data_quality_flag', pd.Series()).notna()])`:
* if the flag column exists, the boolean mask aligns with the frame and
  `clean_records` counts the rows without a flag;
* if it does not exist and the frame is non-empty, indexing with the empty
  default `pd.Series()` raises `pandas.errors.IndexingError` (unalignable
  boolean indexer);
* if the frame is empty, line 193 yields 0 and line 200 divides
  `clean_records / total_records = 0 / 0`, raising `ZeroDivisionError`.
When the column exists some row is flagged, so `total_records > 0` and the
score division at line 200 is safe. -/
def transform_report (df : List RawRow) : Except String QualityReport :=
  let total := df.length
  if flagColumnExists df then
    let clean := clean_count df
    Except.ok
      { total_records := total
        clean_records := clean
        error_records := total - clean
        data_quality_score := round2 ((clean : ℚ) / (total : ℚ) * 100)
        quality_issues := quality_issues df }
  else if total = 0 then
    Except.error "ZeroDivisionError: division by zero"
  else
    Except.error "IndexingError: Unalignable boolean Series provided as indexer"

/-- Embeds `pd.cut(df['price'], bins=[0, 50, 200, 500, inf], labels=[...])`
(lines 170-172).  `pd.cut` defaults to right-closed intervals, so the
brackets are `(0, 50]`, `(50, 200]`, `(200, 500]`, `(500, inf)`; a price
outside every bracket (in particular `price ≤ 0`) and a NaN price get a
NaN tier (`none`). -/
def price_tier (p : Option ℚ) : Option String :=
  match p with
  | none => none
  | some x =>
    if 0 < x ∧ x ≤ 50 then some "Budget"
    else if 50 < x ∧ x ≤ 200 then some "Mid-range"
    else if 200 < x ∧ x ≤ 500 then some "Premium"
    else if 500 < x then some "Luxury"
    else none

/-- Embeds `customer_totals = df.groupby('customer_id')['total_amount'].sum()`
(line 180): the summed `total_amount` of one customer over the whole
table; NaN cells are skipped by the pandas sum (counted as 0). -/
def customer_total (df : List RawRow) (cid : String) : ℚ :=
  ((df.filter (fun r => r.customer_id == cid)).map
    (fun r => r.total_amount.getD 0)).sum

/-- The segment assigned to a customer id by the lambda of lines 181-185:
`'VIP' if total > 1000 else 'Regular' if total > 300 else 'New'`. -/
def customer_segment (df : List RawRow) (cid : String) : String :=
  if 1000 < customer_total df cid then "VIP"
  else if 300 < customer_total df cid then "Regular"
  else "New"

/-- The `customer_segment` column: `df['customer_id'].map(lambda ...)`. -/
def segment_column (df : List RawRow) : List String :=
  df.map (fun r => customer_segment df r.customer_id)

/-- The `total_amount` cell after Transform.  Line 142 only coerces the
existing column (`pd.to_numeric(df['total_amount'], errors='coerce')`,
already reflected in the `RawRow` model); no recomputation happens. -/
def transformed_total (r : RawRow) : Option ℚ := r.total_amount

/-- The `total_amount` column of the processed table. -/
def total_column (df : List RawRow) : List (Option ℚ) := df.map transformed_total

/-- The `total_amount` computed by `generate_sample_data` (lines 93-95):
`round(price*quantity - price*quantity*(discount/100), 2)`. -/
def sample_total (price quantity discount : ℚ) : ℚ :=
  round2 (price * quantity - price * quantity * (discount / 100))

/-- The distinct months of the table in chronological order:
`df.groupby('month')` keys (NaT dropped) after `sort_index()`
(line 235). -/
def monthsOf (df : List RawRow) : List ℤ :=
  (df.filterMap (fun r => r.month)).dedup.insertionSort (fun a b => a ≤ b)

/-- The summed revenue of one month group: `df['revenue']` is a copy of
`total_amount` (line 175), and the pandas group sum skips NaN. -/
def month_revenue (df : List RawRow) (m : ℤ) : ℚ :=
  ((df.filter (fun r => r.month == some m)).map
    (fun r => r.total_amount.getD 0)).sum

/-- Embeds `_calculate_monthly_growth` (lines 233-241): with at least two distinct
months, compare the last two sums of the chronologically sorted series;
`current` and `previous` are numpy float64, so when `previous = 0` the
division yields inf (or nan), a non-finite value modelled as `none`;
otherwise the growth rate is rounded to two decimals.  With fewer than two
distinct months the function returns 0. -/
def monthly_growth (df : List RawRow) : Option ℚ :=
  match (monthsOf df).reverse with
  | cur :: prev :: _ =>
    if month_revenue df prev = 0 then none
    else some (round2 ((month_revenue df cur - month_revenue df prev) /
      month_revenue df prev * 100))
  | _ => some 0

/-- The distinct values of a key column in the ascending order used by
`groupby` for its result index. -/
def groupKeys (l : List String) : List String :=
  l.dedup.insertionSort (fun a b => a ≤ b)

/-- Embeds `series.idxmax()`: the first key attaining the maximal value, `none`
on an empty series. -/
def idxmax (keys : List String) (val : String → ℚ) : Option String :=
  keys.foldl
    (fun acc k =>
      match acc with
      | none => some k
      | some b => if val b < val k then some k else some b)
    none

/-- Summed revenue of one category group (line 225). -/
def category_revenue (df : List RawRow) (c : String) : ℚ :=
  ((df.filter (fun r => r.category == c)).map
    (fun r => r.total_amount.getD 0)).sum

/-- Summed revenue of one region group (line 226). -/
def region_revenue (df : List RawRow) (g : String) : ℚ :=
  ((df.filter (fun r => r.region == g)).map
    (fun r => r.total_amount.getD 0)).sum

/-- Embeds `df.groupby('category')['revenue'].sum().idxmax()` (line 225): on an
empty table the groupby result is empty and `idxmax` raises
`ValueError: attempt to get argmax of an empty sequence`. -/
def top_category (df : List RawRow) : Except String String :=
  match idxmax (groupKeys (df.map (fun r => r.category))) (category_revenue df) with
  | none => Except.error "ValueError: attempt to get argmax of an empty sequence"
  | some c => Except.ok c

/-- Embeds `df.groupby('region')['revenue'].sum().idxmax()` (line 226). -/
def best_region (df : List RawRow) : Except String String :=
  match idxmax (groupKeys (df.map (fun r => r.region))) (region_revenue df) with
  | none => Except.error "ValueError: attempt to get argmax of an empty sequence"
  | some g => Except.ok g

/-- The mutable pipeline state relevant to the claims: `ETLPipeline`
holds `raw_data` and `data_quality_report` (lines 46-50). -/
structure Pipeline where
  raw_data : Option (List RawRow)
  data_quality_report : Option QualityReport
deriving Repr, DecidableEq

/-- Embeds `ETLPipeline.transform_data` as a state transition (lines 124-207):
with no raw table it logs and returns leaving the state unchanged; with a
raw table it works on `self.raw_data.copy()` (line 131), never assigning
`self.raw_data`, and on success stores the freshly computed quality
report; a raised pandas/arithmetic error propagates to the caller. -/
def transform_data (p : Pipeline) : Except String Pipeline :=
  match p.raw_data with
  | none => Except.ok p
  | some df =>
    match transform_report df with
    | Except.error e => Except.error e
    | Except.ok rep =>
      Except.ok { raw_data := p.raw_data, data_quality_report := some rep }

/-! Concrete rows used by the claim theorems. -/

/-- A row violating both the email rule and the price rule. -/
def rowEmailPriceBad : RawRow :=
  { customer_id := "c1", customer_email := some "no-at-sign", price := some (-10),
    quantity := some 1, discount_percent := some 0, total_amount := some (-10),
    month := some 0, category := "Books", region := "Europe" }

/-- A row violating only the email rule. -/
def rowEmailBad : RawRow :=
  { customer_id := "c2", customer_email := some "oops", price := some 10,
    quantity := some 1, discount_percent := some 0, total_amount := some 10,
    month := some 0, category := "Books", region := "Europe" }

/-- A fully valid row: no validation rule matches it. -/
def rowAllValid : RawRow :=
  { customer_id := "c0", customer_email := some "a@b.com", price := some 10,
    quantity := some 1, discount_percent := some 0, total_amount := some 10,
    month := some 0, category := "Books", region := "Europe" }

/-- A customer whose table-wide total is exactly 300. -/
def row300 : RawRow :=
  { customer_id := "c3", customer_email := some "a@b.com", price := some 300,
    quantity := some 1, discount_percent := some 0, total_amount := some 300,
    month := some 0, category := "Books", region := "Europe" }

/-- A customer whose table-wide total is exactly 1000. -/
def row1000 : RawRow :=
  { customer_id := "c4", customer_email := some "a@b.com", price := some 1000,
    quantity := some 1, discount_percent := some 0, total_amount := some 1000,
    month := some 0, category := "Books", region := "Europe" }

/-- A row whose `total_amount` is inconsistent with price × quantity × (1 − discount/100). -/
def rowVerbatim : RawRow :=
  { customer_id := "c5", customer_email := some "a@b.com", price := some 10,
    quantity := some 2, discount_percent := some 0, total_amount := some 999,
    month := some 0, category := "Books", region := "Europe" }

/-- A row with valid email but price ≤ 0. -/
def rowPriceBad : RawRow :=
  { customer_id := "c6", customer_email := some "a@b.com", price := some (-5),
    quantity := some 1, discount_percent := some 0, total_amount := some (-5),
    month := some 0, category := "Books", region := "Europe" }

/-- The quality report of the one-row table `[rowPriceBad]`. -/
def repPriceBad : QualityReport :=
  { total_records := 1, clean_records := 0, error_records := 1,
    data_quality_score := 0, quality_issues := ["Invalid prices: 1"] }

/-- A pipeline state holding `[rowPriceBad]` as raw table, not yet
transformed. -/
def pipePriceBad : Pipeline :=
  { raw_data := some [rowPriceBad], data_quality_report := none }

/-- The pipeline state after transforming `pipePriceBad`. -/
def pipePriceBadDone : Pipeline :=
  { raw_data := some [rowPriceBad], data_quality_report := some repPriceBad }

/-- The quality report of the one-row table `[rowEmailPriceBad]`. -/
def repOverlap : QualityReport :=
  { total_records := 1, clean_records := 0, error_records := 1,
    data_quality_score := 0,
    quality_issues := ["Invalid emails: 1", "Invalid prices: 1"] }

/-- Revenue 100 in month 0. -/
def rowM0 : RawRow :=
  { customer_id := "m", customer_email := some "a@b.com", price := some 100,
    quantity := some 1, discount_percent := some 0, total_amount := some 100,
    month := some 0, category := "Books", region := "Europe" }

/-- Revenue 150 in month 1. -/
def rowM1 : RawRow :=
  { customer_id := "m", customer_email := some "a@b.com", price := some 150,
    quantity := some 1, discount_percent := some 0, total_amount := some 150,
    month := some 1, category := "Books", region := "Europe" }

/-- Revenue 0 in month 0. -/
def rowZ0 : RawRow :=
  { customer_id := "z", customer_email := some "a@b.com", price := some 5,
    quantity := some 1, discount_percent := some 0, total_amount := some 0,
    month := some 0, category := "Books", region := "Europe" }

/-- Revenue 50 in month 1. -/
def rowZ1 : RawRow :=
  { customer_id := "z", customer_email := some "a@b.com", price := some 50,
    quantity := some 1, discount_percent := some 0, total_amount := some 50,
    month := some 1, category := "Books", region := "Europe" }

/-! Claim C1: validation flag priority -/

/-- Claim C1, counterexample.  The claim says a row whose email lacks an '@'
and whose price is ≤ 0 is flagged `Invalid Email` (email-rule priority).
On the code the later `df.loc` assignment of the price rule overwrites the
email flag: the processed flag column for such a one-row table reads
`Invalid Price`, not `Invalid Email`. -/
theorem flag_priority_cex :
    flag_column [rowEmailPriceBad] = [some "Invalid Price"] ∧
    flag_column [rowEmailPriceBad] ≠ [some "Invalid Email"] := by
  have h : flag_column [rowEmailPriceBad] = [some "Invalid Price"] := by
    norm_num [flag_column, flagOf, qtyInvalid, priceInvalid, emailInvalid,
      emailHasAt, rowEmailPriceBad]
  exact ⟨h, by rw [h]; simp⟩

/-- Claim C1, amended.  Each row carries at most one `data_quality_flag`
(one cell), chosen by the LAST matching rule in the assignment order
email → price → quantity, because each rule's `df.loc` write overwrites
the flags of earlier rules on its rows; a row matching no rule stays
unflagged.  In particular a row failing both the email and the price rule
is flagged `Invalid Price`. -/
theorem flag_last_rule_wins (r : RawRow) :
    (qtyInvalid r = true → flagOf r = some "Invalid Quantity") ∧
    (qtyInvalid r = false → priceInvalid r = true → flagOf r = some "Invalid Price") ∧
    (qtyInvalid r = false → priceInvalid r = false → emailInvalid r = true →
      flagOf r = some "Invalid Email") ∧
    (qtyInvalid r = false → priceInvalid r = false → emailInvalid r = false →
      flagOf r = none) := by
  refine ⟨fun h1 => ?_, fun h1 h2 => ?_, fun h1 h2 h3 => ?_, fun h1 h2 h3 => ?_⟩ <;>
    simp_all [flagOf]

/-- Witness for `flag_last_rule_wins` at a concrete row failing only the
email rule. -/
theorem flag_last_rule_wins_witness :
    flagOf rowEmailBad = some "Invalid Email" := by
  refine (flag_last_rule_wins rowEmailBad).2.2.1 ?_ ?_ ?_
  · norm_num [qtyInvalid, rowEmailBad]
  · norm_num [priceInvalid, rowEmailBad]
  · decide

/-! Claim C2: price tiers -/

/-- Claim C2, counterexample.  The claim says the brackets are half-open on
the right with price=0 → Budget, price=50 → Mid-range, price=500 → Luxury.
`pd.cut` defaults to right-closed intervals, so price=0 falls outside all
brackets (NaN tier), price=50 is Budget and price=500 is Premium. -/
theorem price_tier_cex :
    price_tier (some 0) = none ∧ price_tier (some 50) = some "Budget" ∧
    price_tier (some 500) = some "Premium" := by
  norm_num [price_tier]

/-- Claim C2, amended.  `price_tier` is computed from `price` alone with
left-open right-closed brackets: Budget (0,50], Mid-range (50,200],
Premium (200,500], Luxury (500,∞); price ≤ 0 and an uncoercible price
yield no tier. -/
theorem price_tier_brackets (x : ℚ) :
    (x ≤ 0 → price_tier (some x) = none) ∧
    (0 < x → x ≤ 50 → price_tier (some x) = some "Budget") ∧
    (50 < x → x ≤ 200 → price_tier (some x) = some "Mid-range") ∧
    (200 < x → x ≤ 500 → price_tier (some x) = some "Premium") ∧
    (500 < x → price_tier (some x) = some "Luxury") ∧
    price_tier none = none := by
  refine ⟨fun h1 => ?_, fun h1 h2 => ?_, fun h1 h2 => ?_, fun h1 h2 => ?_,
    fun h1 => ?_, rfl⟩ <;>
  · simp only [price_tier]
    split_ifs with g1 g2 g3 g4 <;> first
      | rfl
      | (exfalso;
         first
           | exact absurd ⟨by linarith, by linarith⟩ g1
           | exact absurd ⟨by linarith, by linarith⟩ g2
           | exact absurd ⟨by linarith, by linarith⟩ g3
           | exact absurd (by linarith) g4
           | rcases g1 with ⟨a1, a2⟩; linarith
           | rcases g2 with ⟨a1, a2⟩; linarith
           | rcases g3 with ⟨a1, a2⟩; linarith
           | linarith)

/-- Witness for `price_tier_brackets` at price 75 (Mid-range bracket). -/
theorem price_tier_brackets_witness :
    price_tier (some 75) = some "Mid-range" :=
  (price_tier_brackets 75).2.2.1 (by norm_num) (by norm_num)

/-! Claim C3: customer segmentation -/

/-- Claim C3, counterexample.  The claim says a customer whose summed
`total_amount` is exactly 300 is `Regular`.  The code tests `total > 300`,
so such a customer is `New`. -/
theorem segment_300_cex :
    customer_segment [row300] "c3" = "New" ∧
    customer_segment [row300] "c3" ≠ "Regular" := by
  have h : customer_segment [row300] "c3" = "New" := by
    norm_num [customer_segment, customer_total, row300]
  exact ⟨h, by rw [h]; simp⟩

/-- Claim C3, amended.  Segments come from the customer's summed
`total_amount` over the whole table: a sum of exactly 1000 gives
`Regular` (not VIP, as the claim says), a sum of exactly 300 gives `New`
(not Regular), and every row sharing a `customer_id` carries the
identical segment. -/
theorem segment_thresholds (df : List RawRow) (cid : String) :
    (customer_total df cid = 1000 → customer_segment df cid = "Regular") ∧
    (customer_total df cid = 300 → customer_segment df cid = "New") ∧
    (∀ r ∈ df, r.customer_id = cid →
      customer_segment df r.customer_id = customer_segment df cid) := by
  refine ⟨fun h => ?_, fun h => ?_, fun r _ hcid => by rw [hcid]⟩ <;>
    norm_num [customer_segment, h]

/-- Witness for `segment_thresholds`: a concrete one-row table whose only
customer sums to exactly 1000 and is segmented `Regular`. -/
theorem segment_thresholds_witness :
    customer_total [row1000] "c4" = 1000 ∧
    customer_segment [row1000] "c4" = "Regular" := by
  have h : customer_total [row1000] "c4" = 1000 := by
    norm_num [customer_total, row1000]
  exact ⟨h, (segment_thresholds [row1000] "c4").1 h⟩

/-! Claim C4: zero-row table -/

/-- Claim C4, counterexample.  The claim says a phase receiving a zero-row
table reports an explicit undefined result instead of letting an error
escape.  On the empty table the quality-score division
`clean_records / total_records` raises `ZeroDivisionError`, and the
insight aggregator's `idxmax` calls raise `ValueError`. -/
theorem empty_table_cex :
    transform_report [] = Except.error "ZeroDivisionError: division by zero" ∧
    top_category [] =
      Except.error "ValueError: attempt to get argmax of an empty sequence" ∧
    best_region [] =
      Except.error "ValueError: attempt to get argmax of an empty sequence" :=
  ⟨rfl, rfl, rfl⟩

/-- Claim C4, amended.  A phase receiving a zero-row table raises: the
Quality Scorer's score division raises `ZeroDivisionError` to the caller,
and the Insight Aggregator's `top_category` / `best_region` argmax raises
`ValueError`; no undefined/N-A state is reported anywhere. -/
theorem empty_table_raises (df : List RawRow) (h : df.length = 0) :
    transform_report df = Except.error "ZeroDivisionError: division by zero" ∧
    top_category df =
      Except.error "ValueError: attempt to get argmax of an empty sequence" ∧
    best_region df =
      Except.error "ValueError: attempt to get argmax of an empty sequence" := by
  rw [List.length_eq_zero] at h
  subst h
  exact ⟨rfl, rfl, rfl⟩

/-- Witness for `empty_table_raises` at the empty table. -/
theorem empty_table_raises_witness :
    transform_report [] = Except.error "ZeroDivisionError: division by zero" ∧
    top_category [] =
      Except.error "ValueError: attempt to get argmax of an empty sequence" ∧
    best_region [] =
      Except.error "ValueError: attempt to get argmax of an empty sequence" :=
  empty_table_raises [] rfl

/-! Claim C5: total_amount recomputation -/

/-- Claim C5, counterexample.  The claim says Transform recomputes
`total_amount` as price × quantity × (1 − discount/100) whenever those
inputs are present.  Line 142 only coerces the column: for a row with
price 10, quantity 2, discount 0 but source `total_amount` 999, the
processed column keeps 999 instead of the recomputed 20. -/
theorem total_amount_cex :
    total_column [rowVerbatim] = [some 999] ∧
    sample_total 10 2 0 = 20 ∧
    total_column [rowVerbatim] ≠ [some (sample_total 10 2 0)] := by
  have h20 : sample_total 10 2 0 = 20 := by
    rw [sample_total, round2, roundHalfEven]; norm_num
  refine ⟨rfl, h20, ?_⟩
  rw [h20]
  norm_num [total_column, transformed_total, rowVerbatim]

/-- Claim C5, amended.  During Transform `total_amount` is taken verbatim
from the source row (only coerced to numeric); the formula
price × quantity × (1 − discount/100) rounded to two decimals is applied
only by the sample-data generator, whose computed total agrees with that
formula. -/
theorem total_amount_verbatim (r : RawRow) (p q d : ℚ) :
    transformed_total r = r.total_amount ∧
    sample_total p q d = round2 (p * q * (1 - d / 100)) := by
  refine ⟨rfl, ?_⟩
  rw [sample_total]
  congr 1
  ring

/-! Claim C6: clean/error record accounting -/

/-- Claim C6, failing input.  The claim (and the code's own
`df.get('data_quality_flag', pd.Series())` fallback) intends
`clean_records` to count unflagged rows even when no row at all was
flagged.  But when no validation rule fires the flag column is never
created, and indexing the non-empty frame with the empty fallback Series
raises `pandas.errors.IndexingError`, so the report is never produced:
on a one-row all-valid table Transform crashes instead of reporting
`clean_records = total_records = 1`. -/
theorem clean_table_report_crashes :
    flag_column [rowAllValid] = [none] ∧
    transform_report [rowAllValid] =
      Except.error "IndexingError: Unalignable boolean Series provided as indexer" := by
  constructor
  · norm_num [flag_column, flagOf, qtyInvalid, priceInvalid, emailInvalid,
      emailHasAt, rowAllValid]
  · norm_num [transform_report, flagColumnExists, invalid_emails, invalid_prices,
      invalid_quantities, emailInvalid, priceInvalid, qtyInvalid, emailHasAt,
      rowAllValid]

/-! Claim C7: monthly growth -/

/-- Claim C7.  `_calculate_monthly_growth` sorts the distinct months
chronologically and, when at least two exist and the preceding month's
summed revenue is nonzero, returns the percent change of the latest
month's summed revenue over the preceding one, rounded to two decimals;
with fewer than two distinct months it returns 0 by policy. -/
theorem monthly_growth_spec (df : List RawRow) :
    List.Sorted (fun a b : ℤ => a ≤ b) (monthsOf df) ∧
    (monthsOf df).Nodup ∧
    ((monthsOf df).length < 2 → monthly_growth df = some 0) ∧
    (∀ cur prev rest, (monthsOf df).reverse = cur :: prev :: rest →
      month_revenue df prev ≠ 0 →
      monthly_growth df =
        some (round2 ((month_revenue df cur - month_revenue df prev) /
          month_revenue df prev * 100))) := by
  refine ⟨List.sorted_insertionSort _ _,
    ((List.perm_insertionSort _ _).nodup_iff).mpr (List.nodup_dedup _),
    fun hlen => ?_, fun cur prev rest hrev hne => ?_⟩
  · unfold monthly_growth
    rcases hrev : (monthsOf df).reverse with - | ⟨a, tl⟩
    · simp
    · rcases tl with - | ⟨b, t⟩
      · simp
      · exfalso
        have : (monthsOf df).reverse.length = (monthsOf df).length :=
          List.length_reverse _
        rw [hrev] at this
        simp at this
        omega
  · unfold monthly_growth
    rw [hrev]
    simp [hne]

/-- Witness for `monthly_growth_spec`: revenue 100 in month 0 and 150 in
month 1 give 50.0 growth. -/
theorem monthly_growth_spec_witness :
    monthly_growth [rowM0, rowM1] = some 50 := by
  have hm0 : month_revenue [rowM0, rowM1] 0 = 100 := by
    norm_num [month_revenue, rowM0, rowM1]
  have hm1 : month_revenue [rowM0, rowM1] 1 = 150 := by
    norm_num [month_revenue, rowM0, rowM1]
  have hrev : (monthsOf [rowM0, rowM1]).reverse = 1 :: 0 :: [] := by
    have : monthsOf [rowM0, rowM1] =
        List.insertionSort (fun a b : ℤ => a ≤ b) (List.dedup [(0:ℤ), 1]) := by
      simp [monthsOf, rowM0, rowM1]
    rw [this]
    decide
  have h := (monthly_growth_spec [rowM0, rowM1]).2.2.2 1 0 [] hrev
    (by rw [hm0]; norm_num)
  rw [hm0, hm1] at h
  rw [h]
  congr 1
  rw [round2, roundHalfEven]
  norm_num

/-! Claim C8: re-running Transform -/

/-- Claim C8.  Transform works on a copy of the raw table and never writes
`raw_data` back, so a successful run leaves the raw table unchanged; and
the quality report is a pure function of the raw table, so re-running
Transform (no mutation in between) stores an identical Data Quality
Report. -/
theorem transform_rerun_report (p q s : Pipeline)
    (h1 : transform_data p = Except.ok q) (h2 : transform_data q = Except.ok s) :
    q.raw_data = p.raw_data ∧ s.data_quality_report = q.data_quality_report := by
  rcases hp : p.raw_data with - | df
  · rw [transform_data, hp] at h1
    simp at h1
    subst h1
    rw [transform_data, hp] at h2
    simp at h2
    subst h2
    exact ⟨hp, rfl⟩
  · rw [transform_data, hp] at h1
    dsimp only at h1
    rcases hrep : transform_report df with e | rep <;> rw [hrep] at h1
    · simp at h1
    · simp at h1
      subst h1
      rw [transform_data] at h2
      dsimp only at h2
      rw [hrep] at h2
      simp at h2
      subst h2
      exact ⟨rfl, rfl⟩

/-- Witness for `transform_rerun_report` on a concrete pipeline whose raw
table is the one-row table `[rowPriceBad]`. -/
theorem transform_rerun_report_witness :
    pipePriceBadDone.raw_data = pipePriceBad.raw_data ∧
    pipePriceBadDone.data_quality_report = pipePriceBadDone.data_quality_report := by
  have hflag : flagOf rowPriceBad = some "Invalid Price" := by
    norm_num [flagOf, qtyInvalid, priceInvalid, emailInvalid, emailHasAt, rowPriceBad]
  have hpr : priceInvalid rowPriceBad = true := by
    norm_num [priceInvalid, rowPriceBad]
  have he : emailInvalid rowPriceBad = false := by decide
  have hq : qtyInvalid rowPriceBad = false := by
    norm_num [qtyInvalid, rowPriceBad]
  have hmsg : ("Invalid prices: " ++ toString (1:Nat)) = "Invalid prices: 1" := by
    decide
  have hrep : transform_report [rowPriceBad] = Except.ok repPriceBad := by
    norm_num [transform_report, flagColumnExists, invalid_emails, invalid_prices,
      invalid_quantities, clean_count, quality_issues, hflag, he, hpr, hq,
      repPriceBad, round2, roundHalfEven, hmsg]
  have h1 : transform_data pipePriceBad = Except.ok pipePriceBadDone := by
    simp [transform_data, pipePriceBad, hrep, pipePriceBadDone]
  have h2 : transform_data pipePriceBadDone = Except.ok pipePriceBadDone := by
    simp [transform_data, pipePriceBadDone, hrep]
  exact transform_rerun_report pipePriceBad pipePriceBadDone pipePriceBadDone h1 h2

/-! Claim C9: quality-issue counts vs error records -/

/-- Every row is either unflagged or matches at least one of the three
validation masks, so the table length is bounded by the unflagged count
plus the three per-rule counts. -/
theorem length_le_clean_add_counts (df : List RawRow) :
    df.length ≤ clean_count df +
      (invalid_emails df + invalid_prices df + invalid_quantities df) := by
  induction df with
  | nil => simp [clean_count, invalid_emails, invalid_prices, invalid_quantities]
  | cons r t ih =>
    by_cases hq : qtyInvalid r <;> by_cases hp : priceInvalid r <;>
      by_cases he : emailInvalid r <;>
      simp [clean_count, invalid_emails, invalid_prices, invalid_quantities,
        List.filter_cons, flagOf, hq, hp, he] at * <;>
      omega

/-- Claim C9.  Each `quality_issues` entry reports the count of ALL rows
matching its rule (mask count), independently of the single flag a row
finally carries; consequently `error_records` (the flagged-row count)
never exceeds the sum of the per-rule counts, and on the one-row table
whose row violates both the email and the price rule the sum of the
reported counts strictly exceeds `error_records`. -/
theorem quality_issue_overcount (df : List RawRow) (rep : QualityReport)
    (h : transform_report df = Except.ok rep) :
    (0 < invalid_emails df →
      ("Invalid emails: " ++ toString (invalid_emails df)) ∈ rep.quality_issues) ∧
    (0 < invalid_prices df →
      ("Invalid prices: " ++ toString (invalid_prices df)) ∈ rep.quality_issues) ∧
    (0 < invalid_quantities df →
      ("Invalid quantities: " ++ toString (invalid_quantities df)) ∈ rep.quality_issues) ∧
    rep.error_records ≤ invalid_emails df + invalid_prices df + invalid_quantities df ∧
    (∃ rep2, transform_report [rowEmailPriceBad] = Except.ok rep2 ∧
      rep2.error_records < invalid_emails [rowEmailPriceBad] +
        invalid_prices [rowEmailPriceBad] + invalid_quantities [rowEmailPriceBad]) := by
  rw [transform_report] at h
  by_cases hex : flagColumnExists df
  · rw [if_pos hex] at h
    simp only [Except.ok.injEq] at h
    subst h
    refine ⟨fun hp => ?_, fun hp => ?_, fun hp => ?_, ?_, ?_⟩
    · simp [quality_issues, hp]
    · simp [quality_issues, hp]
    · simp [quality_issues, hp]
    · have := length_le_clean_add_counts df
      simp only []
      omega
    · refine ⟨repOverlap, ?_, ?_⟩
      · have he : emailInvalid rowEmailPriceBad = true := by decide
        have hpr : priceInvalid rowEmailPriceBad = true := by
          norm_num [priceInvalid, rowEmailPriceBad]
        have hq : qtyInvalid rowEmailPriceBad = false := by
          norm_num [qtyInvalid, rowEmailPriceBad]
        have hmsgE : ("Invalid emails: " ++ toString (1:Nat)) = "Invalid emails: 1" := by
          decide
        have hmsgP : ("Invalid prices: " ++ toString (1:Nat)) = "Invalid prices: 1" := by
          decide
        norm_num [transform_report, flagColumnExists, invalid_emails, invalid_prices,
          invalid_quantities, clean_count, quality_issues, flagOf, he, hpr, hq,
          repOverlap, round2, roundHalfEven, hmsgE, hmsgP]
      · have he : emailInvalid rowEmailPriceBad = true := by decide
        have hpr : priceInvalid rowEmailPriceBad = true := by
          norm_num [priceInvalid, rowEmailPriceBad]
        simp [invalid_emails, invalid_prices, invalid_quantities, he, hpr, repOverlap]
        omega
  · rw [if_neg hex] at h
    rcases Nat.eq_zero_or_pos df.length with h0 | h0
    · simp only [h0, if_pos rfl] at h
      cases h
    · rw [if_neg (by omega)] at h
      cases h

/-- Witness for `quality_issue_overcount` at the overlap table. -/
theorem quality_issue_overcount_witness :
    0 < invalid_prices [rowEmailPriceBad] ∧
    ("Invalid prices: " ++ toString (invalid_prices [rowEmailPriceBad])) ∈
      repOverlap.quality_issues := by
  have hpr : priceInvalid rowEmailPriceBad = true := by
    norm_num [priceInvalid, rowEmailPriceBad]
  have hcount : 0 < invalid_prices [rowEmailPriceBad] := by
    simp [invalid_prices, hpr]
  have hrep : transform_report [rowEmailPriceBad] = Except.ok repOverlap := by
    have he : emailInvalid rowEmailPriceBad = true := by decide
    have hq : qtyInvalid rowEmailPriceBad = false := by
      norm_num [qtyInvalid, rowEmailPriceBad]
    have hmsgE : ("Invalid emails: " ++ toString (1:Nat)) = "Invalid emails: 1" := by
      decide
    have hmsgP : ("Invalid prices: " ++ toString (1:Nat)) = "Invalid prices: 1" := by
      decide
    norm_num [transform_report, flagColumnExists, invalid_emails, invalid_prices,
      invalid_quantities, clean_count, quality_issues, flagOf, he, hpr, hq,
      repOverlap, round2, roundHalfEven, hmsgE, hmsgP]
  exact ⟨hcount,
    (quality_issue_overcount [rowEmailPriceBad] repOverlap hrep).2.1 hcount⟩

/-! Claim C10: unguarded growth division -/

/-- Claim C10.  The month-over-month division is unguarded: whenever at
least two distinct months exist and the second-to-last month's summed
revenue is exactly 0, the numpy float division yields a non-finite value
(inf or nan, modelled `none`) instead of a finite percentage or an
error report. -/
theorem growth_zero_prev_nonfinite (df : List RawRow) (cur prev : ℤ)
    (rest : List ℤ) (hrev : (monthsOf df).reverse = cur :: prev :: rest)
    (h0 : month_revenue df prev = 0) :
    monthly_growth df = none := by
  unfold monthly_growth
  rw [hrev]
  simp [h0]

/-- Witness for `growth_zero_prev_nonfinite`: month 0 sums to revenue 0,
month 1 to revenue 50. -/
theorem growth_zero_prev_nonfinite_witness :
    monthly_growth [rowZ0, rowZ1] = none := by
  have hrev : (monthsOf [rowZ0, rowZ1]).reverse = 1 :: 0 :: [] := by
    have : monthsOf [rowZ0, rowZ1] =
        List.insertionSort (fun a b : ℤ => a ≤ b) (List.dedup [(0:ℤ), 1]) := by
      simp [monthsOf, rowZ0, rowZ1]
    rw [this]
    decide
  exact growth_zero_prev_nonfinite [rowZ0, rowZ1] 1 0 [] hrev
    (by norm_num [month_revenue, rowZ0, rowZ1])
